import Mathlib

/-!
Verification development for the Shiksha-Pulse classroom engagement dashboard.

Shallow embedding of the repository's analysis-and-fusion core:
  - `app.py` : shared dashboard snapshot, engagement scorer, main-nudge
    selection, continuous student cycle, on-demand speech cycle
    (trigger endpoint plus asynchronous body), lock-guarded sections.
  - `Speech_analyzer.py` : pace classifier, tone classifier, speech nudge
    generator, top-level `analyze_teacher_speech`.

External collaborators (camera, microphone, the Google transcription
service, librosa feature extraction) are modelled as explicit inputs or
`Except` outcomes, following the external-interface contracts.  Machine
floats are modelled exactly as rationals; Python ints as `Int`/`Nat`.
The wall-clock `timestamp` field is not modelled (no claim mentions it).
-/

namespace ShikshaPulse

/-- The shared dashboard snapshot (`dashboard_data` in `app.py`, lines 17-29),
without the wall-clock `timestamp` field. -/
structure Snapshot where
  engagement_score : Int
  emotion : String
  audio_state : String
  teacher_pace : String
  teacher_wpm : Int
  teacher_tone : String
  nudge : String
  speech_nudge : String
  status : String
  analyzing_speech : Bool
deriving DecidableEq

/-- The initial snapshot created at process start (`app.py` lines 17-29). -/
def initialData : Snapshot :=
  { engagement_score := 50
    emotion := "neutral"
    audio_state := "quiet"
    teacher_pace := "unknown"
    teacher_wpm := 0
    teacher_tone := "unknown"
    nudge := "Click \"Analyze My Teaching\" to get started!"
    speech_nudge := ""
    status := "Ready"
    analyzing_speech := false }

/-- The engagement scorer of `update_student_data` (`app.py` lines 69-104):
sequential score updates starting from the base 50, then clamping. -/
def engagementScore (emotion audio_state teacher_pace teacher_tone : String) : Int :=
  let score : Int := 50
  let score : Int :=
    if emotion = "happy" ∨ emotion = "neutral" ∨ emotion = "surprise" then score + 20
    else if emotion = "sad" ∨ emotion = "angry" ∨ emotion = "fear" then score - 20
    else score
  let score : Int :=
    if audio_state = "silent" then score - 20
    else if audio_state = "active" then score + 10
    else score
  let score : Int :=
    if teacher_pace = "too_fast" then score - 15
    else if teacher_pace = "too_slow" then score - 10
    else if teacher_pace = "good" then score + 5
    else score
  let score : Int :=
    if teacher_tone = "monotone" then score - 15
    else if teacher_tone = "engaging" then score + 10
    else score
  max 0 (min 100 score)

/-- Main-nudge selection (`app.py` lines 107-111): default, then the two
threshold overrides. -/
def mainNudge (score : Int) : String :=
  let nudge := "✅ All good! Keep going."
  if score < 40 then "⚠️ Low engagement! Try asking a question or showing an example."
  else if score < 60 then "⚡ Engagement dropping. Consider a quick activity or recap."
  else nudge

/-- One whole iteration of the continuous student cycle
(`update_student_data`, `app.py` lines 41-120), run without interleaving:
the busy-flag check (lines 44-47), the status write (lines 55-56), the
external emotion/audio measurements (lines 60, 65, taken as inputs), the
locked read of the last-known teacher metrics (lines 84-88), the score and
main-nudge computation, and the final locked commit (lines 114-120). -/
def studentIteration (s : Snapshot) (emotion audio_state : String) : Snapshot :=
  if s.analyzing_speech then s
  else
    let s1 := { s with status := "Analyzing students..." }
    let score := engagementScore emotion audio_state s1.teacher_pace s1.teacher_tone
    { s1 with
        engagement_score := score
        emotion := emotion
        audio_state := audio_state
        nudge := mainNudge score
        status := "Active" }

/-- The student cycle body together with its catch-all handler
(`app.py` lines 42-130): a failing iteration only writes the error text
into `status` (line 130); a successful one is `studentIteration`. -/
def studentIterationCaught (s : Snapshot) (outcome : Except String (String × String)) :
    Snapshot :=
  match outcome with
  | .ok (emotion, audio_state) => studentIteration s emotion audio_state
  | .error msg => { s with status := "Error: " ++ msg }

/-- Any number of successive student-cycle iterations, fed by a list of
external (emotion, audio_state) measurements. -/
def studentIterations (s : Snapshot) : List (String × String) → Snapshot
  | [] => s
  | (e, a) :: rest => studentIterations (studentIteration s e a) rest

/-- Words-per-minute computation of `SpeechAnalyzer._analyze_pace`
(`Speech_analyzer.py` line 140): `word_count / duration_minutes` guarded by
`duration_minutes > 0`, else 0 (no division is performed). -/
def paceWpm (word_count : Nat) (duration_minutes : Rat) : Rat :=
  if duration_minutes > 0 then (word_count : Rat) / duration_minutes else 0

/-- Pace categorisation chain of `SpeechAnalyzer._analyze_pace`
(`Speech_analyzer.py` lines 146-155), first match wins. -/
def paceStatusOf (wpm : Rat) : String :=
  if wpm > 180 then "too_fast"
  else if wpm > 160 then "fast"
  else if wpm < 100 then "too_slow"
  else if wpm < 120 then "slow"
  else "good"

/-- Result record of `_analyze_pace` (`Speech_analyzer.py` lines 157-161):
`wpm` is the Python `int(wpm)` truncation (floor, as `wpm ≥ 0`). -/
structure PaceResult where
  status : String
  wpm : Int
  word_count : Nat
deriving DecidableEq

/-- Outcome of the external capture-and-transcribe collaborator inside
`_analyze_pace`: a transcription yielding a word count and the measured
audio duration in minutes, or one of the caught exceptions
(`sr.UnknownValueError`, `sr.RequestError`, any other exception;
`Speech_analyzer.py` lines 163-177). -/
inductive TranscribeOutcome where
  | ok (word_count : Nat) (duration_minutes : Rat)
  | unknownValue
  | requestError
  | otherError
deriving DecidableEq

/-- `SpeechAnalyzer._analyze_pace` (`Speech_analyzer.py` lines 113-177) over
the abstracted transcription outcome. -/
def analyze_pace (outcome : TranscribeOutcome) : PaceResult :=
  match outcome with
  | .ok word_count duration_minutes =>
      let wpm := paceWpm word_count duration_minutes
      { status := paceStatusOf wpm, wpm := ⌊wpm⌋, word_count := word_count }
  | .unknownValue => { status := "unclear", wpm := 0, word_count := 0 }
  | .requestError => { status := "error", wpm := 0, word_count := 0 }
  | .otherError => { status := "error", wpm := 0, word_count := 0 }

/-- Result record of `_analyze_tone` (`Speech_analyzer.py` lines 232-238). -/
structure ToneResult where
  status : String
  energy : Rat
  energy_status : String
  pitch_variation : Rat
  monotone : Bool
deriving DecidableEq

/-- `SpeechAnalyzer._analyze_tone` (`Speech_analyzer.py` lines 179-250):
the feature-extraction collaborator either yields the mean RMS energy and
the pitch-variation ratio, or fails (any exception, lines 240-250).  The
categorisation thresholds are lines 215-230. -/
def analyze_tone (outcome : Except String (Rat × Rat)) : ToneResult :=
  match outcome with
  | .ok (energy, pitch_variation) =>
      let energy_status :=
        if energy < 0.02 then "too_quiet"
        else if energy < 0.05 then "quiet"
        else if energy > 0.15 then "too_loud"
        else "good"
      if pitch_variation < 0.1 then
        { status := "monotone", energy := energy, energy_status := energy_status
          pitch_variation := pitch_variation, monotone := true }
      else
        { status := "engaging", energy := energy, energy_status := energy_status
          pitch_variation := pitch_variation, monotone := false }
  | .error _ =>
      { status := "unknown", energy := 0, energy_status := "unknown"
        pitch_variation := 0, monotone := false }

/-- Python `sep.join(list)` as used by `_generate_speech_nudge`
(`Speech_analyzer.py` line 283). -/
def joinSep (sep : String) : List String → String
  | [] => ""
  | [a] => a
  | a :: rest => a ++ sep ++ joinSep sep rest

/-- The pace-keyed appends of `_generate_speech_nudge`
(`Speech_analyzer.py` lines 257-267): at most one message, templates keyed
by pace status, embedding the truncated wpm where applicable. -/
def pace_nudges (pace : PaceResult) : List String :=
  if pace.status = "too_fast" then
    ["🐇 You\x27re speaking too fast (" ++ toString pace.wpm ++
      " WPM). Slow down to help students absorb the material."]
  else if pace.status = "fast" then
    ["⚡ Speaking a bit quickly (" ++ toString pace.wpm ++
      " WPM). Consider slowing down slightly."]
  else if pace.status = "too_slow" then
    ["🐢 Speaking quite slowly (" ++ toString pace.wpm ++
      " WPM). You can speed up a bit to maintain engagement."]
  else if pace.status = "slow" then
    ["😴 Pace is a bit slow (" ++ toString pace.wpm ++ " WPM). Try adding more energy."]
  else if pace.status = "unclear" then
    ["⚠️ Could not analyze speech - please speak more clearly or check your microphone."]
  else []

/-- The tone-keyed appends of `_generate_speech_nudge`
(`Speech_analyzer.py` lines 269-276): the monotone message, then the
energy message. -/
def tone_nudges (tone : ToneResult) : List String :=
  (if tone.monotone then
    ["📉 Your tone sounds monotonous. Try varying your pitch and enthusiasm!"]
   else []) ++
  (if tone.energy_status = "too_quiet" then
    ["🔇 You\x27re speaking too quietly. Increase your volume or check your microphone."]
   else if tone.energy_status = "too_loud" then
    ["🔊 Volume is quite high. Lower it slightly for comfort."]
   else [])

/-- `SpeechAnalyzer._generate_speech_nudge` (`Speech_analyzer.py` lines
252-283): the message list in its fixed order, the all-good fallback for an
empty list, and the `" | "` join. -/
def generate_speech_nudge (pace : PaceResult) (tone : ToneResult) : String :=
  let nudges := pace_nudges pace ++ tone_nudges tone
  if nudges = [] then "✅ Great speech pace and tone! Keep it up!"
  else joinSep " | " nudges

/-- The pace statuses whose template emits a message (for counting
templates; see `pace_nudges`). -/
def paceTemplateKeys : List String := ["too_fast", "fast", "too_slow", "slow", "unclear"]

/-- Result record of `analyze_teacher_speech` (`Speech_analyzer.py` lines
48-55 and 61-68). -/
structure SpeechResult where
  pace : String
  wpm : Int
  tone : String
  energy : Rat
  pitch_variation : Rat
  nudge : String
deriving DecidableEq

/-- `SpeechAnalyzer.analyze_teacher_speech` (`Speech_analyzer.py` lines
16-68): recording either succeeds, delivering the abstracted transcription
and feature-extraction outcomes, or raises; any raised exception is caught
and converted to the fixed unknown-status result (lines 57-68). -/
def analyze_teacher_speech
    (recording : Except String (TranscribeOutcome × Except String (Rat × Rat))) :
    SpeechResult :=
  match recording with
  | .ok (transcription, features) =>
      let pace_result := analyze_pace transcription
      let tone_result := analyze_tone features
      { pace := pace_result.status
        wpm := pace_result.wpm
        tone := tone_result.status
        energy := tone_result.energy
        pitch_variation := tone_result.pitch_variation
        nudge := generate_speech_nudge pace_result tone_result }
  | .error _ =>
      { pace := "unknown", wpm := 0, tone := "unknown", energy := 0
        pitch_variation := 0
        nudge := "Could not analyze speech. Please check your microphone." }

/-- The JSON acknowledgment returned by the `/analyze-speech` endpoint
(`app.py` lines 157-160 and 217-220). -/
structure TriggerResponse where
  status : String
  message : String
deriving DecidableEq

/-- The synchronous part of the `/analyze-speech` handler (`app.py` lines
148-166 and 217-220): one atomic locked section testing and setting the
busy flag, plus the immediate acknowledgment. -/
def analyze_speech_endpoint (s : Snapshot) : TriggerResponse × Snapshot :=
  if s.analyzing_speech then
    ({ status := "error", message := "Already analyzing speech. Please wait." }, s)
  else
    ({ status := "success"
       message := "Speech analysis started. Recording will begin in 2 seconds..." },
     { s with
         analyzing_speech := true
         status := "Get ready to speak..."
         speech_nudge := "Preparing to record..." })

/-- The asynchronous body of the speech cycle (`analyze` inside
`analyze_speech`, `app.py` lines 168-211): the locked progress writes
(lines 177-179), then the work whose outcome is either a `SpeechResult`
(committed at lines 193-199) or an exception (caught and committed at
lines 203-211).  Both terminal commits clear the busy flag. -/
def speechAnalyzeBody (s : Snapshot) (outcome : Except String SpeechResult) : Snapshot :=
  let s1 := { s with
      status := "Recording your speech..."
      speech_nudge := "🔴 Recording for 10 seconds... Speak naturally!" }
  match outcome with
  | .ok r =>
      { s1 with
          teacher_pace := r.pace
          teacher_wpm := r.wpm
          teacher_tone := r.tone
          speech_nudge := r.nudge
          status := "Analysis complete!"
          analyzing_speech := false }
  | .error e =>
      { s1 with
          speech_nudge := "Error analyzing speech: " ++ e
          status := "Error occurred"
          analyzing_speech := false }

/-- Program counter of the student thread (`update_student_data`), between
its lock-guarded sections: `check` is the top of the loop before the
busy-flag test (lines 44-47); `setStatus` before the status write (lines
55-56); `sense` before the external emotion/audio measurements (lines
60-65); `readMetrics` before the locked read of the teacher metrics (lines
84-88), carrying the measurements; `commit` before the final locked write
(lines 114-120), carrying the measurements and the metrics read. -/
inductive SPC where
  | check
  | setStatus
  | sense
  | readMetrics (emotion audio_state : String)
  | commit (emotion audio_state teacher_pace : String) (teacher_wpm : Int)
      (teacher_tone : String)
deriving DecidableEq

/-- Program counter of the speech cycle: `idle` when no analysis task is in
flight; `progress` before the locked progress writes of the spawned task
(`app.py` lines 177-179); `work` during the external analysis (line 185);
`commitOk`/`commitErr` before the terminal locked commit (lines 193-199,
success, or 208-211, caught exception). -/
inductive PPC where
  | idle
  | progress
  | work
  | commitOk (r : SpeechResult)
  | commitErr (msg : String)
deriving DecidableEq

/-- A configuration of the whole program: both program counters and the
shared snapshot. -/
structure Config where
  spc : SPC
  ppc : PPC
  snap : Snapshot
deriving DecidableEq

/-- Which logical cycle performs a step. -/
inductive Thread where
  | student
  | speech
deriving DecidableEq

/-- Small-step interleaving semantics: each constructor is one atomic
lock-guarded section of `app.py` (or an external, snapshot-free step).
The lock is modelled by each section being a single indivisible step. -/
inductive Step : Thread → Config → Config → Prop where
  | student_skip (p : PPC) (s : Snapshot) (h : s.analyzing_speech = true) :
      Step .student ⟨.check, p, s⟩ ⟨.check, p, s⟩
  | student_enter (p : PPC) (s : Snapshot) (h : s.analyzing_speech = false) :
      Step .student ⟨.check, p, s⟩ ⟨.setStatus, p, s⟩
  | student_status (p : PPC) (s : Snapshot) :
      Step .student ⟨.setStatus, p, s⟩
        ⟨.sense, p, { s with status := "Analyzing students..." }⟩
  | student_sense (p : PPC) (s : Snapshot) (emotion audio_state : String) :
      Step .student ⟨.sense, p, s⟩ ⟨.readMetrics emotion audio_state, p, s⟩
  | student_read (p : PPC) (s : Snapshot) (e a : String) :
      Step .student ⟨.readMetrics e a, p, s⟩
        ⟨.commit e a s.teacher_pace s.teacher_wpm s.teacher_tone, p, s⟩
  | student_commit (p : PPC) (s : Snapshot) (e a tp : String) (tw : Int) (tt : String) :
      Step .student ⟨.commit e a tp tw tt, p, s⟩
        ⟨.check, p,
          { s with
              engagement_score := engagementScore e a tp tt
              emotion := e
              audio_state := a
              nudge := mainNudge (engagementScore e a tp tt)
              status := "Active" }⟩
  | speech_trigger_reject (sp : SPC) (s : Snapshot) (h : s.analyzing_speech = true) :
      Step .speech ⟨sp, .idle, s⟩ ⟨sp, .idle, s⟩
  | speech_trigger_accept (sp : SPC) (s : Snapshot) (h : s.analyzing_speech = false) :
      Step .speech ⟨sp, .idle, s⟩
        ⟨sp, .progress,
          { s with
              analyzing_speech := true
              status := "Get ready to speak..."
              speech_nudge := "Preparing to record..." }⟩
  | speech_progress (sp : SPC) (s : Snapshot) :
      Step .speech ⟨sp, .progress, s⟩
        ⟨sp, .work,
          { s with
              status := "Recording your speech..."
              speech_nudge := "🔴 Recording for 10 seconds... Speak naturally!" }⟩
  | speech_work_ok (sp : SPC) (s : Snapshot) (r : SpeechResult) :
      Step .speech ⟨sp, .work, s⟩ ⟨sp, .commitOk r, s⟩
  | speech_work_err (sp : SPC) (s : Snapshot) (m : String) :
      Step .speech ⟨sp, .work, s⟩ ⟨sp, .commitErr m, s⟩
  | speech_commit_ok (sp : SPC) (s : Snapshot) (r : SpeechResult) :
      Step .speech ⟨sp, .commitOk r, s⟩
        ⟨sp, .idle,
          { s with
              teacher_pace := r.pace
              teacher_wpm := r.wpm
              teacher_tone := r.tone
              speech_nudge := r.nudge
              status := "Analysis complete!"
              analyzing_speech := false }⟩
  | speech_commit_err (sp : SPC) (s : Snapshot) (m : String) :
      Step .speech ⟨sp, .commitErr m, s⟩
        ⟨sp, .idle,
          { s with
              speech_nudge := "Error analyzing speech: " ++ m
              status := "Error occurred"
              analyzing_speech := false }⟩

/-- The configuration at process start: both cycles at their entry points
over the initial snapshot. -/
def initConfig : Config := ⟨.check, .idle, initialData⟩

/-- Reachability from the initial configuration under any interleaving. -/
def Reachable (c : Config) : Prop :=
  Relation.ReflTransGen (fun a b => ∃ t, Step t a b) initConfig c

/-- Claim C1, first part: a student iteration that observes the busy flag
true at its initial locked check does nothing for that iteration. -/
def StudentSkipsWhenBusy : Prop :=
  ∀ (p : PPC) (s : Snapshot), s.analyzing_speech = true →
    ∀ c', Step .student ⟨.check, p, s⟩ c' → c' = ⟨.check, p, s⟩

/-- Claim C1, second part: whenever a speech cycle owns the flag, no student
step writes the shared snapshot (no interleaving against it). -/
def NoStudentWriteWhileBusy : Prop :=
  ∀ c, Reachable c → c.snap.analyzing_speech = true →
    ∀ c', Step .student c c' → c'.snap = c.snap

/-- Claim C4, first part: across any number of student-cycle iterations the
four teacher-owned fields are unchanged. -/
def StudentPreservesTeacherFields : Prop :=
  ∀ (s : Snapshot) (inputs : List (String × String)),
    (studentIterations s inputs).teacher_pace = s.teacher_pace ∧
    (studentIterations s inputs).teacher_wpm = s.teacher_wpm ∧
    (studentIterations s inputs).teacher_tone = s.teacher_tone ∧
    (studentIterations s inputs).speech_nudge = s.speech_nudge

/-- Claim C4, second part: any step of either cycle that changes one of the
four teacher-owned fields is a terminal results commit of the speech
cycle. -/
def TeacherFieldsChangeOnlyAtResultCommit : Prop :=
  ∀ (t : Thread) (c c' : Config), Step t c c' →
    (c'.snap.teacher_pace ≠ c.snap.teacher_pace ∨
     c'.snap.teacher_wpm ≠ c.snap.teacher_wpm ∨
     c'.snap.teacher_tone ≠ c.snap.teacher_tone ∨
     c'.snap.speech_nudge ≠ c.snap.speech_nudge) →
    (∃ r, c.ppc = .commitOk r) ∨ (∃ m, c.ppc = .commitErr m)

/-- Claim C8's count of pace-keyed templates: six distinct pace statuses
each of which makes `pace_nudges` emit a message. -/
def SixPaceTemplates : Prop :=
  ∃ keys : List String, keys.Nodup ∧ keys.length = 6 ∧
    ∀ s ∈ keys, ∀ (w : Int) (wc : Nat),
      pace_nudges { status := s, wpm := w, word_count := wc } ≠ []

/-- A snapshot with the busy flag held, used to exercise the busy branches
at a concrete input. -/
def busySnap : Snapshot := { initialData with analyzing_speech := true }

/-- Helper: a single student-cycle step never changes the teacher-owned
fields nor the busy flag. -/
theorem studentStep_frame (c c' : Config) (h : Step .student c c') :
    c'.snap.teacher_pace = c.snap.teacher_pace ∧
    c'.snap.teacher_wpm = c.snap.teacher_wpm ∧
    c'.snap.teacher_tone = c.snap.teacher_tone ∧
    c'.snap.speech_nudge = c.snap.speech_nudge ∧
    c'.snap.analyzing_speech = c.snap.analyzing_speech := by
  cases h <;> simp

/-- Helper: one whole uninterleaved student iteration preserves the
teacher-owned fields. -/
theorem studentIteration_frame (s : Snapshot) (e a : String) :
    (studentIteration s e a).teacher_pace = s.teacher_pace ∧
    (studentIteration s e a).teacher_wpm = s.teacher_wpm ∧
    (studentIteration s e a).teacher_tone = s.teacher_tone ∧
    (studentIteration s e a).speech_nudge = s.speech_nudge := by
  unfold studentIteration
  split <;> simp

/-- Helper: the multi-iteration frame property of the student cycle. -/
theorem studentIterations_frame : StudentPreservesTeacherFields := by
  intro s inputs
  induction inputs generalizing s with
  | nil => simp [studentIterations]
  | cons pr rest ih =>
      obtain ⟨e, a⟩ := pr
      obtain ⟨h1, h2, h3, h4⟩ := ih (studentIteration s e a)
      obtain ⟨g1, g2, g3, g4⟩ := studentIteration_frame s e a
      exact ⟨by rw [studentIterations, h1, g1], by rw [studentIterations, h2, g2],
             by rw [studentIterations, h3, g3], by rw [studentIterations, h4, g4]⟩

/-- Helper: the student cycle skips, changing nothing, whenever its initial
locked check sees the busy flag true. -/
theorem studentSkip_of_busy : StudentSkipsWhenBusy := by
  intro p s hb c' h
  cases h with
  | student_skip => rfl
  | student_enter _ _ h' => rw [hb] at h'; cases h'

/-- Snapshot after the student cycle's status write at the start of an
iteration (`app.py` lines 55-56). -/
def snapA : Snapshot := { initialData with status := "Analyzing students..." }

/-- Snapshot after a speech trigger is accepted mid student iteration
(`app.py` lines 163-165). -/
def snapB : Snapshot :=
  { snapA with
      analyzing_speech := true
      status := "Get ready to speak..."
      speech_nudge := "Preparing to record..." }

/-- Reachable configuration in which a speech cycle owns the busy flag
while the student cycle, having passed its initial check earlier, is about
to perform its final locked commit. -/
def cfgMid : Config :=
  ⟨.commit "happy" "active" "unknown" 0 "unknown", .progress, snapB⟩

/-- C1 counterexample: the claim fails on the code.  A speech trigger that
arrives after the student cycle's initial busy-flag check but before its
final commit leads to a reachable configuration in which the speech cycle
owns the flag and the student cycle's commit still writes the snapshot, so
the two cycles' accesses interleave while `analyzing_speech` is true. -/
theorem c1_counterexample : ¬ (StudentSkipsWhenBusy ∧ NoStudentWriteWhileBusy) := by
  rintro ⟨-, hB⟩
  have hreach : Reachable cfgMid := by
    unfold Reachable
    refine Relation.ReflTransGen.head
      ⟨.student, Step.student_enter .idle initialData rfl⟩ ?_
    refine Relation.ReflTransGen.head
      ⟨.student, Step.student_status .idle initialData⟩ ?_
    refine Relation.ReflTransGen.head
      ⟨.student, Step.student_sense .idle snapA "happy" "active"⟩ ?_
    refine Relation.ReflTransGen.head
      ⟨.speech, Step.speech_trigger_accept (.readMetrics "happy" "active") snapA rfl⟩ ?_
    refine Relation.ReflTransGen.head
      ⟨.student, Step.student_read .progress snapB "happy" "active"⟩ ?_
    exact Relation.ReflTransGen.refl
  have hb : cfgMid.snap.analyzing_speech = true := rfl
  have hwrite := hB cfgMid hreach hb _
    (Step.student_commit .progress snapB "happy" "active" "unknown" 0 "unknown")
  have hst := congrArg Snapshot.status hwrite
  simp [cfgMid, snapB, snapA, initialData] at hst

/-- C1 (amended): the student cycle skips, with no work and no snapshot
writes, whenever its initial locked check observes the busy flag true; and
no student step ever writes the teacher-owned fields or the busy flag.
However (see the counterexample) a student iteration that passed its
initial check before the flag was claimed may still commit its student
fields while a speech cycle is in flight. -/
theorem c1_amended_student_exclusion :
    StudentSkipsWhenBusy ∧
      ∀ c c', Step .student c c' →
        c'.snap.teacher_pace = c.snap.teacher_pace ∧
        c'.snap.teacher_wpm = c.snap.teacher_wpm ∧
        c'.snap.teacher_tone = c.snap.teacher_tone ∧
        c'.snap.speech_nudge = c.snap.speech_nudge ∧
        c'.snap.analyzing_speech = c.snap.analyzing_speech :=
  ⟨studentSkip_of_busy, studentStep_frame⟩

/-- C1 witness: the amended theorem applied at a concrete busy snapshot
(the skip step changes nothing) and at the concrete status-write step (the
teacher pace is untouched). -/
theorem c1_amended_student_exclusion_witness :
    (⟨.check, .idle, busySnap⟩ : Config) = ⟨.check, .idle, busySnap⟩ ∧
    snapA.teacher_pace = initialData.teacher_pace :=
  ⟨c1_amended_student_exclusion.1 .idle busySnap rfl _ (Step.student_skip .idle busySnap rfl),
   (c1_amended_student_exclusion.2 ⟨.setStatus, .idle, initialData⟩ ⟨.sense, .idle, snapA⟩
      (Step.student_status .idle initialData)).1⟩

/-- C2: the `/analyze-speech` trigger is an atomic locked test-and-set.
While the flag is true it returns the fixed "already analyzing" rejection,
leaves the snapshot (in particular every teacher field) untouched, and no
speech task starts — every speech step from the idle task state is a
no-op.  While the flag is false it sets the flag and returns the success
acknowledgment at once. -/
theorem c2_trigger_test_and_set :
    ∀ s : Snapshot,
      (s.analyzing_speech = true →
        (analyze_speech_endpoint s).1 =
          { status := "error", message := "Already analyzing speech. Please wait." } ∧
        (analyze_speech_endpoint s).2 = s ∧
        ∀ (sp : SPC) (c' : Config), Step .speech ⟨sp, .idle, s⟩ c' → c' = ⟨sp, .idle, s⟩) ∧
      (s.analyzing_speech = false →
        (analyze_speech_endpoint s).1 =
          { status := "success"
            message := "Speech analysis started. Recording will begin in 2 seconds..." } ∧
        (analyze_speech_endpoint s).2 =
          { s with
              analyzing_speech := true
              status := "Get ready to speak..."
              speech_nudge := "Preparing to record..." }) := by
  intro s
  constructor
  · intro h
    refine ⟨by simp [analyze_speech_endpoint, h], by simp [analyze_speech_endpoint, h], ?_⟩
    intro sp c' hstep
    cases hstep with
    | speech_trigger_reject => rfl
    | speech_trigger_accept _ _ h' => rw [h] at h'; cases h'
  · intro h
    exact ⟨by simp [analyze_speech_endpoint, h], by simp [analyze_speech_endpoint, h]⟩

/-- C2 witness: the trigger applied to a concrete busy snapshot is
rejected and applied to the initial (idle) snapshot is accepted with the
flag set. -/
theorem c2_trigger_test_and_set_witness :
    (analyze_speech_endpoint busySnap).1 =
      { status := "error", message := "Already analyzing speech. Please wait." } ∧
    (analyze_speech_endpoint busySnap).2 = busySnap ∧
    (analyze_speech_endpoint initialData).2 =
      { initialData with
          analyzing_speech := true
          status := "Get ready to speak..."
          speech_nudge := "Preparing to record..." } :=
  ⟨((c2_trigger_test_and_set busySnap).1 rfl).1,
   ((c2_trigger_test_and_set busySnap).1 rfl).2.1,
   ((c2_trigger_test_and_set initialData).2 rfl).2⟩

/-- C3: the speech cycle's asynchronous body always reaches its terminal
commit with the busy flag cleared, on the success outcome and on any
exception; on the exception path it writes the error-status message and
error text into the snapshot.  The same holds step-wise for the terminal
commit steps of the interleaving semantics. -/
theorem c3_speech_cycle_always_clears_flag :
    (∀ (s : Snapshot) (outcome : Except String SpeechResult),
        (speechAnalyzeBody s outcome).analyzing_speech = false) ∧
    (∀ (s : Snapshot) (e : String),
        speechAnalyzeBody s (.error e) =
          { s with
              speech_nudge := "Error analyzing speech: " ++ e
              status := "Error occurred"
              analyzing_speech := false }) ∧
    (∀ (sp : SPC) (s : Snapshot) (r : SpeechResult) (c' : Config),
        Step .speech ⟨sp, .commitOk r, s⟩ c' → c'.snap.analyzing_speech = false) ∧
    (∀ (sp : SPC) (s : Snapshot) (m : String) (c' : Config),
        Step .speech ⟨sp, .commitErr m, s⟩ c' →
          c'.snap.analyzing_speech = false ∧
          c'.snap.speech_nudge = "Error analyzing speech: " ++ m ∧
          c'.snap.status = "Error occurred") := by
  refine ⟨?_, ?_, ?_, ?_⟩
  · intro s outcome; cases outcome <;> rfl
  · intro s e; rfl
  · intro sp s r c' hstep; cases hstep; rfl
  · intro sp s m c' hstep; cases hstep; exact ⟨rfl, rfl, rfl⟩

/-- C3 witness: the body applied at the initial snapshot with a concrete
exception clears the flag and writes the error message; the concrete
error-commit step does the same. -/
theorem c3_speech_cycle_always_clears_flag_witness :
    (speechAnalyzeBody initialData (.error "mic failure")).analyzing_speech = false ∧
    speechAnalyzeBody initialData (.error "mic failure") =
      { initialData with
          speech_nudge := "Error analyzing speech: " ++ "mic failure"
          status := "Error occurred"
          analyzing_speech := false } ∧
    ({ initialData with
        speech_nudge := "Error analyzing speech: " ++ "boom"
        status := "Error occurred"
        analyzing_speech := false } : Snapshot).analyzing_speech = false :=
  ⟨c3_speech_cycle_always_clears_flag.1 initialData (.error "mic failure"),
   c3_speech_cycle_always_clears_flag.2.1 initialData "mic failure",
   c3_speech_cycle_always_clears_flag.2.2.2 .check initialData "boom" _
     (Step.speech_commit_err .check initialData "boom") |>.1⟩

/-- C4 counterexample: the claim fails on the code.  The speech trigger's
accepted branch (not a results commit) already writes `speech_nudge`
("Preparing to record..."), so the four listed fields do not change only
when a speech cycle commits its results. -/
theorem c4_counterexample :
    ¬ (StudentPreservesTeacherFields ∧ TeacherFieldsChangeOnlyAtResultCommit) := by
  rintro ⟨-, hB⟩
  have h := hB .speech ⟨.check, .idle, initialData⟩ _
    (Step.speech_trigger_accept .check initialData rfl)
    (Or.inr (Or.inr (Or.inr (by decide))))
  rcases h with ⟨r, hr⟩ | ⟨m, hm⟩
  · cases hr
  · cases hm

/-- C4 (amended): the student cycle never writes `teacher_pace`,
`teacher_wpm`, `teacher_tone` or `speech_nudge` across any number of
iterations; `teacher_pace`/`teacher_wpm`/`teacher_tone` change only at the
speech cycle's successful results commit; `speech_nudge` is additionally
written by the speech cycle's trigger acknowledgment, progress update and
error commit, but never by a student step. -/
theorem c4_amended_teacher_field_frame :
    StudentPreservesTeacherFields ∧
      (∀ (t : Thread) (c c' : Config), Step t c c' →
        (c'.snap.teacher_pace ≠ c.snap.teacher_pace ∨
         c'.snap.teacher_wpm ≠ c.snap.teacher_wpm ∨
         c'.snap.teacher_tone ≠ c.snap.teacher_tone) →
        ∃ r, c.ppc = .commitOk r) ∧
      (∀ c c' : Config, Step .student c c' →
        c'.snap.speech_nudge = c.snap.speech_nudge) := by
  refine ⟨studentIterations_frame, ?_, ?_⟩
  · intro t c c' hstep
    cases hstep <;> simp
  · intro c c' hstep
    exact (studentStep_frame c c' hstep).2.2.2.1

/-- C4 witness: the amended theorem applied to two concrete iterations of
the student cycle over the initial snapshot, and to the concrete
status-write step. -/
theorem c4_amended_teacher_field_frame_witness :
    (studentIterations initialData [("happy", "active"), ("sad", "silent")]).teacher_pace =
      initialData.teacher_pace ∧
    snapA.speech_nudge = initialData.speech_nudge :=
  ⟨(c4_amended_teacher_field_frame.1 initialData [("happy", "active"), ("sad", "silent")]).1,
   c4_amended_teacher_field_frame.2.2 ⟨.setStatus, .idle, initialData⟩ ⟨.sense, .idle, snapA⟩
     (Step.student_status .idle initialData)⟩

/-- Spec-side emotion delta of the Engagement Scorer, stated as in the
claim for comparison with the code's sequential updates. -/
def specEmotionDelta (emotion : String) : Int :=
  if emotion = "happy" ∨ emotion = "neutral" ∨ emotion = "surprise" then 20
  else if emotion = "sad" ∨ emotion = "angry" ∨ emotion = "fear" then -20
  else 0

/-- Spec-side audio delta of the Engagement Scorer. -/
def specAudioDelta (audio_state : String) : Int :=
  if audio_state = "silent" then -20
  else if audio_state = "active" then 10
  else 0

/-- Spec-side teacher-pace delta of the Engagement Scorer. -/
def specPaceDelta (teacher_pace : String) : Int :=
  if teacher_pace = "too_fast" then -15
  else if teacher_pace = "too_slow" then -10
  else if teacher_pace = "good" then 5
  else 0

/-- Spec-side teacher-tone delta of the Engagement Scorer. -/
def specToneDelta (teacher_tone : String) : Int :=
  if teacher_tone = "monotone" then -15
  else if teacher_tone = "engaging" then 10
  else 0

/-- C5: for every combination of inputs the engagement score is 50 plus
the four deltas, clamped to [0, 100]; exactly one main nudge is produced,
with the warning iff score < 40, the caution iff 40 ≤ score < 60 and the
affirmation otherwise; and scenario C (happy/active/good/engaging) yields
95 with the "all good" nudge. -/
theorem c5_engagement_scorer :
    (∀ e a p t : String,
        engagementScore e a p t =
          max 0 (min 100
            (50 + specEmotionDelta e + specAudioDelta a + specPaceDelta p + specToneDelta t))) ∧
    (∀ e a p t : String,
        0 ≤ engagementScore e a p t ∧ engagementScore e a p t ≤ 100) ∧
    (∀ score : Int,
        (mainNudge score =
            "⚠️ Low engagement! Try asking a question or showing an example." ↔
          score < 40) ∧
        (mainNudge score = "⚡ Engagement dropping. Consider a quick activity or recap." ↔
          40 ≤ score ∧ score < 60) ∧
        (mainNudge score = "✅ All good! Keep going." ↔ 60 ≤ score)) ∧
    engagementScore "happy" "active" "good" "engaging" = 95 ∧
    mainNudge 95 = "✅ All good! Keep going." := by
  refine ⟨?_, ?_, ?_, by decide, by decide⟩
  · intro e a p t
    unfold engagementScore specEmotionDelta specAudioDelta specPaceDelta specToneDelta
    split_ifs <;> rfl
  · intro e a p t
    exact ⟨le_max_left _ _, max_le (by norm_num) (min_le_left _ _)⟩
  · intro score
    unfold mainNudge
    split_ifs with h1 h2 <;> refine ⟨?_, ?_, ?_⟩ <;> simp <;> omega

/-- C5 witness: the scorer and nudge applied at concrete inputs (scenario
D of the spec: angry/silent/too_fast/monotone clamps to 0 and selects the
low-engagement warning). -/
theorem c5_engagement_scorer_witness :
    engagementScore "angry" "silent" "too_fast" "monotone" =
      max 0 (min 100
        (50 + specEmotionDelta "angry" + specAudioDelta "silent" +
          specPaceDelta "too_fast" + specToneDelta "monotone")) ∧
    (0 ≤ engagementScore "angry" "silent" "too_fast" "monotone" ∧
      engagementScore "angry" "silent" "too_fast" "monotone" ≤ 100) ∧
    mainNudge 0 = "⚠️ Low engagement! Try asking a question or showing an example." :=
  ⟨c5_engagement_scorer.1 "angry" "silent" "too_fast" "monotone",
   c5_engagement_scorer.2.1 "angry" "silent" "too_fast" "monotone",
   (c5_engagement_scorer.2.2.1 0).1.mpr (by norm_num)⟩

/-- C6: the pace classifier returns exactly one status per wpm, with the
thresholds checked in source order (first match wins): the five statuses
exactly partition the rationals as characterised below; in particular the
gap 160 < wpm ≤ 180 yields `fast`. -/
theorem c6_pace_thresholds :
    ∀ wpm : Rat,
      (paceStatusOf wpm = "too_fast" ↔ 180 < wpm) ∧
      (paceStatusOf wpm = "fast" ↔ 160 < wpm ∧ wpm ≤ 180) ∧
      (paceStatusOf wpm = "too_slow" ↔ wpm < 100) ∧
      (paceStatusOf wpm = "slow" ↔ 100 ≤ wpm ∧ wpm < 120) ∧
      (paceStatusOf wpm = "good" ↔ 120 ≤ wpm ∧ wpm ≤ 160) := by
  intro wpm
  unfold paceStatusOf
  split_ifs with h1 h2 h3 h4 <;> refine ⟨?_, ?_, ?_, ?_, ?_⟩ <;> simp <;>
    first
      | linarith
      | (intro h; linarith)
      | (constructor <;> linarith)

/-- C6 witness: the classifier applied at the five concrete wpm values
named by the claim. -/
theorem c6_pace_thresholds_witness :
    paceStatusOf 181 = "too_fast" ∧ paceStatusOf 170 = "fast" ∧
    paceStatusOf 140 = "good" ∧ paceStatusOf 110 = "slow" ∧
    paceStatusOf 90 = "too_slow" :=
  ⟨(c6_pace_thresholds 181).1.mpr (by norm_num),
   (c6_pace_thresholds 170).2.1.mpr (by norm_num),
   (c6_pace_thresholds 140).2.2.2.2.mpr (by norm_num),
   (c6_pace_thresholds 110).2.2.2.1.mpr (by norm_num),
   (c6_pace_thresholds 90).2.2.1.mpr (by norm_num)⟩

/-- C7: for every word count, a nonpositive measured duration makes the
pace computation take the guarded branch — no division is performed — and
the words-per-minute value is 0 (also after the `int` truncation stored in
the pace result). -/
theorem c7_nonpositive_duration_yields_zero_wpm :
    ∀ (word_count : Nat) (duration_minutes : Rat), duration_minutes ≤ 0 →
      paceWpm word_count duration_minutes = 0 ∧
      (analyze_pace (.ok word_count duration_minutes)).wpm = 0 := by
  intro wc d h
  have hnot : ¬ d > 0 := not_lt.mpr h
  constructor
  · simp [paceWpm, hnot]
  · simp [analyze_pace, paceWpm, hnot]

/-- C7 witness: 300 transcribed words with a zero-minute duration produce
wpm = 0. -/
theorem c7_nonpositive_duration_yields_zero_wpm_witness :
    paceWpm 300 0 = 0 ∧ (analyze_pace (.ok 300 0)).wpm = 0 :=
  c7_nonpositive_duration_yields_zero_wpm 300 0 (by norm_num)

/-- First character of a string, for separating the advisory messages from
the fixed all-good message. -/
def firstChar (s : String) : Option Char := s.data.head?

/-- Helper: appending on the right keeps a nonempty string's first
character. -/
theorem firstChar_append (s t : String) (c : Char) (h : firstChar s = some c) :
    firstChar (s ++ t) = some c := by
  unfold firstChar at h ⊢
  rw [String.data_append]
  cases hs : s.data with
  | nil => rw [hs] at h; cases h
  | cons x xs => rw [hs] at h; simp at h; simp [h]

/-- Helper: the join of a nonempty message list starts with its first
message. -/
theorem joinSep_cons_head (sep a : String) (l : List String) :
    ∃ r, joinSep sep (a :: l) = a ++ r := by
  cases l with
  | nil => exact ⟨"", by simp [joinSep]⟩
  | cons b bs => exact ⟨sep ++ joinSep sep (b :: bs), by simp [joinSep, String.append_assoc]⟩

/-- Helper: every advisory message emitted by the nudge generator starts
with a character other than the all-good message's leading check mark. -/
theorem nudge_firstChar (p : PaceResult) (t : ToneResult) (m : String)
    (hm : m ∈ pace_nudges p ++ tone_nudges t) :
    ∃ c, firstChar m = some c ∧ c ≠ '✅' := by
  rw [List.mem_append] at hm
  rcases hm with hm | hm
  · unfold pace_nudges at hm
    split_ifs at hm <;> simp at hm <;> subst hm
    · exact ⟨'🐇', firstChar_append _ _ _ (firstChar_append _ _ _ rfl), by decide⟩
    · exact ⟨'⚡', firstChar_append _ _ _ (firstChar_append _ _ _ rfl), by decide⟩
    · exact ⟨'🐢', firstChar_append _ _ _ (firstChar_append _ _ _ rfl), by decide⟩
    · exact ⟨'😴', firstChar_append _ _ _ (firstChar_append _ _ _ rfl), by decide⟩
    · exact ⟨'⚠', rfl, by decide⟩
  · unfold tone_nudges at hm
    rw [List.mem_append] at hm
    rcases hm with hm | hm
    · split_ifs at hm <;> simp at hm
      subst hm
      exact ⟨'📉', rfl, by decide⟩
    · split_ifs at hm <;> simp at hm <;> subst hm
      · exact ⟨'🔇', rfl, by decide⟩
      · exact ⟨'🔊', rfl, by decide⟩

/-- Helper: with at least one advisory message pending, the generator's
join never coincides with the fixed all-good message. -/
theorem generate_ne_allgood (p : PaceResult) (t : ToneResult)
    (h : pace_nudges p ++ tone_nudges t ≠ []) :
    generate_speech_nudge p t ≠ "✅ Great speech pace and tone! Keep it up!" := by
  cases hn : pace_nudges p ++ tone_nudges t with
  | nil => exact absurd hn h
  | cons m rest =>
      have hm : m ∈ pace_nudges p ++ tone_nudges t := by
        rw [hn]; exact List.mem_cons_self _ _
      obtain ⟨c, hc, hcne⟩ := nudge_firstChar p t m hm
      obtain ⟨r, hr⟩ := joinSep_cons_head " | " m rest
      have hgen : generate_speech_nudge p t = m ++ r := by
        unfold generate_speech_nudge
        rw [hn]
        simp [hr]
      intro habs
      rw [hgen] at habs
      have hfc := congrArg firstChar habs
      rw [firstChar_append _ _ _ hc] at hfc
      have hAll : firstChar "✅ Great speech pace and tone! Keep it up!" = some '✅' := rfl
      rw [hAll] at hfc
      exact hcne (Option.some.inj hfc)

/-- Helper: the generator returns the fixed all-good message exactly when
no pace and no tone message qualifies. -/
theorem generate_eq_allgood_iff (p : PaceResult) (t : ToneResult) :
    generate_speech_nudge p t = "✅ Great speech pace and tone! Keep it up!" ↔
      pace_nudges p = [] ∧ tone_nudges t = [] := by
  constructor
  · intro h
    by_cases hn : pace_nudges p ++ tone_nudges t = []
    · exact List.append_eq_nil.mp hn
    · exact absurd h (generate_ne_allgood p t hn)
  · rintro ⟨h1, h2⟩
    unfold generate_speech_nudge
    simp [h1, h2]

/-- Helper: the pace part of the generator emits a message exactly for the
five statuses with templates. -/
theorem pace_nudges_ne_nil_iff (p : PaceResult) :
    pace_nudges p ≠ [] ↔ p.status ∈ paceTemplateKeys := by
  unfold pace_nudges paceTemplateKeys
  split_ifs with h1 h2 h3 h4 h5 <;> simp_all

/-- C8 counterexample: the claim fails on the code.  There are no six
distinct pace statuses with message templates — only the five of
`paceTemplateKeys` make `pace_nudges` emit anything, so no six-element
duplicate-free key list can exist. -/
theorem c8_counterexample : ¬ SixPaceTemplates := by
  rintro ⟨keys, hnd, hlen, hall⟩
  have hsub : keys ⊆ paceTemplateKeys := by
    intro s hs
    exact (pace_nudges_ne_nil_iff { status := s, wpm := 0, word_count := 0 }).mp (hall s hs 0 0)
  have hcard : keys.toFinset.card ≤ paceTemplateKeys.toFinset.card :=
    Finset.card_le_card fun x hx => List.mem_toFinset.mpr (hsub (List.mem_toFinset.mp hx))
  rw [List.toFinset_card_of_nodup hnd] at hcard
  have h5 : paceTemplateKeys.toFinset.card = 5 := by decide
  omega

/-- C8 (amended): the speech nudge generator is a deterministic pure
function of the pace and tone results alone.  It emits, in fixed priority
order, the pace message (one of 5 templates keyed by pace status, each
embedding the wpm value where applicable, `unclear` yielding the
microphone-check message), then the monotone message iff `monotone` is
true, then an energy message iff `energy_status` is too_quiet or too_loud,
joined with the separator " | "; and it returns the single fixed all-good
message iff no message qualifies. -/
theorem c8_amended_speech_nudge_generator :
    (∀ p : PaceResult, pace_nudges p ≠ [] ↔ p.status ∈ paceTemplateKeys) ∧
    paceTemplateKeys.Nodup ∧
    paceTemplateKeys.length = 5 ∧
    (∀ (w : Int) (wc : Nat),
        pace_nudges { status := "unclear", wpm := w, word_count := wc } =
          ["⚠️ Could not analyze speech - please speak more clearly or check your microphone."]) ∧
    (∀ (p : PaceResult) (t : ToneResult),
        generate_speech_nudge p t =
          if pace_nudges p ++ tone_nudges t = [] then
            "✅ Great speech pace and tone! Keep it up!"
          else joinSep " | " (pace_nudges p ++ tone_nudges t)) ∧
    (∀ t : ToneResult,
        "📉 Your tone sounds monotonous. Try varying your pitch and enthusiasm!" ∈
            tone_nudges t ↔
          t.monotone = true) ∧
    (∀ t : ToneResult, t.monotone = false →
        (tone_nudges t ≠ [] ↔
          t.energy_status = "too_quiet" ∨ t.energy_status = "too_loud")) ∧
    (∀ (p : PaceResult) (t : ToneResult),
        generate_speech_nudge p t = "✅ Great speech pace and tone! Keep it up!" ↔
          pace_nudges p = [] ∧ tone_nudges t = []) := by
  refine ⟨pace_nudges_ne_nil_iff, by decide, by decide, ?_, ?_, ?_, ?_, generate_eq_allgood_iff⟩
  · intro w wc
    simp [pace_nudges]
  · intro p t
    rfl
  · intro t
    unfold tone_nudges
    cases hm : t.monotone <;> split_ifs <;> simp_all
  · intro t hmono
    unfold tone_nudges
    rw [hmono]
    split_ifs with h1 h2 <;> simp_all

/-- A concrete engaging, good-energy tone result, as produced by
`analyze_tone` for an energetic varied voice. -/
def engagingTone : ToneResult :=
  { status := "engaging", energy := 0.1, energy_status := "good"
    pitch_variation := 0.2, monotone := false }

/-- C8 witness: the amended theorem applied at concrete results — a good
pace with an engaging, good-energy tone yields no qualifying message and
hence exactly the fixed all-good message. -/
theorem c8_amended_speech_nudge_generator_witness :
    (tone_nudges engagingTone ≠ [] ↔
      engagingTone.energy_status = "too_quiet" ∨ engagingTone.energy_status = "too_loud") ∧
    generate_speech_nudge { status := "good", wpm := 140, word_count := 300 } engagingTone =
      "✅ Great speech pace and tone! Keep it up!" :=
  ⟨c8_amended_speech_nudge_generator.2.2.2.2.2.2.1 engagingTone rfl,
   (c8_amended_speech_nudge_generator.2.2.2.2.2.2.2
       { status := "good", wpm := 140, word_count := 300 } engagingTone).mpr
     ⟨by decide, by decide⟩⟩

/-- C9: every failure inside a classifier or a cycle's analysis work is
caught locally and converted into a categorical error/unclear/unknown
status plus a descriptive message in the result or snapshot (the
components are total functions — no exception escapes to the scheduler or
request handler), and the speech cycle's failure path still clears the
busy flag. -/
theorem c9_failures_caught_and_degraded :
    analyze_pace .unknownValue = { status := "unclear", wpm := 0, word_count := 0 } ∧
    analyze_pace .requestError = { status := "error", wpm := 0, word_count := 0 } ∧
    analyze_pace .otherError = { status := "error", wpm := 0, word_count := 0 } ∧
    (∀ m : String,
        analyze_tone (.error m) =
          { status := "unknown", energy := 0, energy_status := "unknown"
            pitch_variation := 0, monotone := false }) ∧
    (∀ m : String,
        analyze_teacher_speech (.error m) =
          { pace := "unknown", wpm := 0, tone := "unknown", energy := 0
            pitch_variation := 0
            nudge := "Could not analyze speech. Please check your microphone." }) ∧
    (∀ (s : Snapshot) (m : String),
        studentIterationCaught s (.error m) = { s with status := "Error: " ++ m }) ∧
    (∀ (s : Snapshot) (m : String),
        (speechAnalyzeBody s (.error m)).analyzing_speech = false ∧
        (speechAnalyzeBody s (.error m)).speech_nudge = "Error analyzing speech: " ++ m ∧
        (speechAnalyzeBody s (.error m)).status = "Error occurred") :=
  ⟨rfl, rfl, rfl, fun _ => rfl, fun _ => rfl, fun _ _ => rfl, fun _ _ => ⟨rfl, rfl, rfl⟩⟩

/-- C10 (implicit): the generator emits no pace message for the statuses
`good`, `error` and `unknown`; consequently a pace result whose status is
`error` (transcription service failure), combined with a non-monotone tone
whose energy status is neither too_quiet nor too_loud, makes the generator
return exactly the fixed all-good message — reporting the failed analysis
as a success. -/
theorem c10_error_pace_reports_all_good :
    (∀ p : PaceResult,
        p.status = "good" ∨ p.status = "error" ∨ p.status = "unknown" →
        pace_nudges p = []) ∧
    (∀ (w : Int) (wc : Nat) (t : ToneResult),
        t.monotone = false →
        t.energy_status ≠ "too_quiet" →
        t.energy_status ≠ "too_loud" →
        generate_speech_nudge { status := "error", wpm := w, word_count := wc } t =
          "✅ Great speech pace and tone! Keep it up!") := by
  constructor
  · rintro p (h | h | h) <;> simp [pace_nudges, h]
  · intro w wc t h1 h2 h3
    simp [generate_speech_nudge, pace_nudges, tone_nudges, h1, h2, h3]

/-- C10 witness: the concrete `error` pace result with the concrete
engaging good-energy tone yields the all-good message. -/
theorem c10_error_pace_reports_all_good_witness :
    pace_nudges { status := "error", wpm := 0, word_count := 0 } = [] ∧
    generate_speech_nudge { status := "error", wpm := 0, word_count := 0 } engagingTone =
      "✅ Great speech pace and tone! Keep it up!" :=
  ⟨c10_error_pace_reports_all_good.1 { status := "error", wpm := 0, word_count := 0 }
     (Or.inr (Or.inl rfl)),
   c10_error_pace_reports_all_good.2 0 0 engagingTone rfl (by decide) (by decide)⟩

end ShikshaPulse
